import Mathlib

/-! Shallow embedding of the meat-shop backend cart / order / payment
workflow: products with tracked inventory, per-account carts with derived
totals, order creation from a cart, the order lifecycle (status history,
delivery, cancellation with stock restoration) and the two payment
confirmation paths (client confirmation and the gateway webhook).
Documents are modelled as plain structures, the document store as lists
passed in and out explicitly, and mongoose pre-save hooks as explicit
functions applied at each save point. -/

namespace MeatShop

/-- Product inventory sub-record (quantity, trackQuantity). -/
structure Inventory where
  quantity : Int
  trackQuantity : Bool
  deriving DecidableEq, Repr

/-- Product document: the fields the cart and order workflow reads. -/
structure Product where
  pid : Nat
  name : String
  price : ℚ
  weightValue : ℚ
  inventory : Inventory
  isActive : Bool
  deriving DecidableEq, Repr

/-- Product.findById, and the result of populating a product reference. -/
def findProduct (products : List Product) (pid : Nat) : Option Product :=
  products.find? (fun p => p.pid == pid)

/-- product.save(): overwrite the stored document that has the same id. -/
def replaceProduct (products : List Product) (newP : Product) : List Product :=
  products.map (fun q => if q.pid = newP.pid then newP else q)

/-- Cart line item (product reference, quantity, price snapshot, line total). -/
structure CartItem where
  product : Nat
  quantity : Nat
  price : ℚ
  totalPrice : ℚ
  deriving DecidableEq, Repr

/-- Cart document with derived totals. -/
structure Cart where
  user : Nat
  items : List CartItem
  totalItems : Nat
  totalAmount : ℚ
  deriving DecidableEq, Repr

/-- cartItemSchema pre-save hook: totalPrice = quantity * price. -/
def saveCartItem (i : CartItem) : CartItem :=
  { i with totalPrice := (i.quantity : ℚ) * i.price }

/-- cart.save(): subdocument hooks run first, then the cartSchema pre-save
hook recomputes totalItems and totalAmount from the items. -/
def saveCart (c : Cart) : Cart :=
  let items := c.items.map saveCartItem
  { c with
    items := items
    totalItems := (items.map (fun i => i.quantity)).sum
    totalAmount := (items.map (fun i => i.totalPrice)).sum }

/-- Cart.create with an empty items list (create runs the save hooks). -/
def createEmptyCart (uid : Nat) : Cart :=
  saveCart { user := uid, items := [], totalItems := 0, totalAmount := 0 }

/-- Derived-totals invariant of a cart document. -/
def cartInv (c : Cart) : Prop :=
  c.totalAmount = (c.items.map (fun i => i.totalPrice)).sum ∧
  c.totalItems = (c.items.map (fun i => i.quantity)).sum ∧
  ∀ i ∈ c.items, i.totalPrice = (i.quantity : ℚ) * i.price

instance (c : Cart) : Decidable (cartInv c) := by
  unfold cartInv; infer_instance

/-- Error taxonomy of the controllers (one constructor per distinct 4xx
response body in the translated handlers). -/
inductive ApiError where
  | emptyCart
  | productUnavailable
  | insufficientStock
  | cartNotFound
  | itemNotFound
  | productNotFound
  | notAuthorized
  | invalidTransition
  | paymentNotSuccessful
  deriving DecidableEq, Repr

/-- Assignment through findIndex: rewrite the first matching line item. -/
def updateFirst (p : CartItem → Bool) (f : CartItem → CartItem) :
    List CartItem → List CartItem
  | [] => []
  | i :: rest => if p i then f i :: rest else i :: updateFirst p f rest

/-- getCart: lazily create the cart, silently drop line items whose product
is missing or inactive, and persist the pruned cart when anything changed. -/
def getCart (products : List Product) (cart : Option Cart) (uid : Nat) : Cart :=
  let c := match cart with
    | none => createEmptyCart uid
    | some c => c
  let activeItems := c.items.filter (fun i =>
    match findProduct products i.product with
    | some p => p.isActive
    | none => false)
  if activeItems.length != c.items.length then saveCart { c with items := activeItems } else c

/-- addToCart: validate the product and stock, then upsert the line item,
refreshing its price snapshot to the current product price. -/
def addToCart (products : List Product) (cart : Option Cart) (uid : Nat)
    (productId : Nat) (quantity : Nat) : Except ApiError Cart :=
  match findProduct products productId with
  | none => .error .productNotFound
  | some product =>
    if product.isActive = false then .error .productNotFound
    else if product.inventory.trackQuantity ∧ product.inventory.quantity < (quantity : Int) then
      .error .insufficientStock
    else
      let c := match cart with
        | none => createEmptyCart uid
        | some c => c
      match c.items.find? (fun i => i.product == productId) with
      | some existing =>
        let newQuantity := existing.quantity + quantity
        if product.inventory.trackQuantity ∧ product.inventory.quantity < (newQuantity : Int) then
          .error .insufficientStock
        else
          let newItems := updateFirst (fun i => i.product == productId)
            (fun i => { i with
              quantity := newQuantity
              price := product.price
              totalPrice := (newQuantity : ℚ) * product.price }) c.items
          .ok (saveCart { c with items := newItems })
      | none =>
        let newItem : CartItem := { product := productId, quantity := quantity, price := product.price, totalPrice := (quantity : ℚ) * product.price }
        .ok (saveCart { c with items := c.items ++ [newItem] })

/-- updateCartItem: the line must already exist; stock is checked against the
new absolute quantity. -/
def updateCartItem (products : List Product) (cart : Option Cart)
    (productId : Nat) (quantity : Nat) : Except ApiError Cart :=
  match cart with
  | none => .error .cartNotFound
  | some c =>
    match c.items.find? (fun i => i.product == productId) with
    | none => .error .itemNotFound
    | some _ =>
      match findProduct products productId with
      | none => .error .productNotFound
      | some product =>
        if product.isActive = false then .error .productNotFound
        else if product.inventory.trackQuantity ∧ product.inventory.quantity < (quantity : Int) then
          .error .insufficientStock
        else
          let newItems := updateFirst (fun i => i.product == productId)
            (fun i => { i with
              quantity := quantity
              price := product.price
              totalPrice := (quantity : ℚ) * product.price }) c.items
          .ok (saveCart { c with items := newItems })

/-- removeFromCart: filter the line out and save; 404 when the account has no
cart document. -/
def removeFromCart (cart : Option Cart) (productId : Nat) : Except ApiError Cart :=
  match cart with
  | none => .error .cartNotFound
  | some c =>
    .ok (saveCart { c with items := c.items.filter (fun i => !(i.product == productId)) })

/-- clearCart: lazily create, then save with an empty items list. -/
def clearCart (cart : Option Cart) (uid : Nat) : Cart :=
  let c := match cart with
    | none => createEmptyCart uid
    | some c => c
  saveCart { c with items := [] }

/-- Client-supplied line of a cart sync request. -/
structure SyncItem where
  productId : Nat
  quantity : Nat
  deriving DecidableEq, Repr

/-- syncCart validation loop: drop lines whose product is missing or inactive
or whose quantity exceeds tracked stock, keep the rest at current price. -/
def buildSyncItems (products : List Product) : List SyncItem → List CartItem
  | [] => []
  | item :: rest =>
    match findProduct products item.productId with
    | none => buildSyncItems products rest
    | some product =>
      if product.isActive = false then buildSyncItems products rest
      else if product.inventory.trackQuantity ∧ product.inventory.quantity < (item.quantity : Int) then
        buildSyncItems products rest
      else
        { product := item.productId, quantity := item.quantity, price := product.price, totalPrice := (item.quantity : ℚ) * product.price } :: buildSyncItems products rest

/-- syncCart: replace the whole cart with the validated subset and save. -/
def syncCart (products : List Product) (cart : Option Cart) (uid : Nat)
    (items : List SyncItem) : Cart :=
  let c := match cart with
    | none => createEmptyCart uid
    | some c => c
  saveCart { c with items := buildSyncItems products items }

/-- Order status enum of the order schema. -/
inductive OrderStatus where
  | pending
  | confirmed
  | processing
  | shipped
  | delivered
  | cancelled
  | refunded
  deriving DecidableEq, Repr

/-- One entry of the append-only status history log. -/
structure StatusEntry where
  status : OrderStatus
  date : Nat
  note : Option String
  deriving DecidableEq, Repr

/-- Immutable order line snapshot. -/
structure OrderItem where
  product : Nat
  name : String
  price : ℚ
  quantity : Nat
  totalPrice : ℚ
  deriving DecidableEq, Repr

/-- Payment sub-record of an order. -/
structure PaymentInfo where
  method : String
  transactionId : Option String
  paidAt : Option Nat
  deriving DecidableEq, Repr

/-- Order document: the fields the lifecycle and payment claims read. -/
structure Order where
  orderNumber : String
  user : Nat
  items : List OrderItem
  paymentInfo : PaymentInfo
  itemsPrice : ℚ
  taxPrice : ℚ
  shippingPrice : ℚ
  totalPrice : ℚ
  status : OrderStatus
  isPaid : Bool
  isDelivered : Bool
  deliveredAt : Option Nat
  statusHistory : List StatusEntry
  deriving DecidableEq, Repr

/-- Caller role supplied by the access-control layer. -/
inductive Role where
  | customer
  | admin
  deriving DecidableEq, Repr

/-- order.save() on an already-persisted order: the orderSchema pre-save
hooks. storedStatus is the status currently in the database; mongoose marks
the status path modified only when it was assigned a different value, so the
history hook fires exactly when the saved status differs from the stored one
(and pushes an entry carrying no note). The delivered hook then stamps
isDelivered and deliveredAt when the order reaches delivered for the first
time. -/
def saveExistingOrder (storedStatus : OrderStatus) (now : Nat) (o : Order) : Order :=
  let o1 := if o.status ≠ storedStatus then
      { o with statusHistory := o.statusHistory ++ [{ status := o.status, date := now, note := none }] }
    else o
  if o1.status = .delivered ∧ o1.isDelivered = false then
    { o1 with isDelivered := true, deliveredAt := some now }
  else o1

/-- updateOrderStatus handler (admin): assign the new status, push a noted
history entry when a note was supplied, then save (which runs the hooks). -/
def updateOrderStatus (o : Order) (status : OrderStatus) (note : Option String)
    (now : Nat) : Order :=
  let o1 := { o with status := status }
  let o2 := match note with
    | some n => { o1 with statusHistory := o1.statusHistory ++ [{ status := status, date := now, note := some n }] }
    | none => o1
  saveExistingOrder o.status now o2

/-- Shared shape of the two inventory loops of the order controller: for each
line, look the product up and, when it tracks quantity, overwrite its stock
with op applied to the current stock and the line quantity, saving the
product document back. -/
def stockStep (op : Int → Nat → Int) (prods : List Product) (line : Nat × Nat) : List Product :=
  match findProduct prods line.1 with
  | some p =>
    if p.inventory.trackQuantity then
      replaceProduct prods { p with inventory := { p.inventory with quantity := op p.inventory.quantity line.2 } }
    else prods
  | none => prods

/-- Fold of the inventory-update step over the lines of the order. -/
def stockLoop (op : Int → Nat → Int) (lines : List (Nat × Nat))
    (products : List Product) : List Product :=
  lines.foldl (stockStep op) products

/-- createOrder inventory update: decrement stock by the ordered quantity for
every stock-tracked line. -/
def decrementInventory (items : List CartItem) (products : List Product) : List Product :=
  stockLoop (fun q n => q - (n : Int)) (items.map (fun i => (i.product, i.quantity))) products

/-- cancelOrder inventory restoration: increment stock by the ordered
quantity for every line whose product still exists and tracks quantity. -/
def restoreInventory (items : List OrderItem) (products : List Product) : List Product :=
  stockLoop (fun q n => q + (n : Int)) (items.map (fun i => (i.product, i.quantity))) products

/-- cancelOrder handler: owner-or-admin check, the pending-or-confirmed
guard, then the manual cancelled history push, stock restoration and save. -/
def cancelOrder (o : Order) (callerId : Nat) (role : Role)
    (products : List Product) (now : Nat) : (Except ApiError Order) × List Product :=
  if o.user ≠ callerId ∧ role ≠ Role.admin then (.error .notAuthorized, products)
  else if o.status ≠ .pending ∧ o.status ≠ .confirmed then (.error .invalidTransition, products)
  else
    let note := if role = Role.admin then "Cancelled by admin" else "Cancelled by customer"
    let o1 := { o with
      status := OrderStatus.cancelled
      statusHistory := o.statusHistory ++ [{ status := OrderStatus.cancelled, date := now, note := some note }] }
    let products1 := restoreInventory o.items products
    (.ok (saveExistingOrder o.status now o1), products1)

/-- JS Math.round: floor of the argument plus one half. -/
def jsRound (q : ℚ) : Int := ⌊q + 1 / 2⌋

/-- createOrder validation pass: walk the cart lines in order, failing on the
first line whose product is missing or inactive or whose tracked stock is
below the requested quantity, and snapshot every valid line into an order
line at the current product price. -/
def buildOrderItems (products : List Product) : List CartItem → Except ApiError (List OrderItem)
  | [] => .ok []
  | ci :: rest =>
    match findProduct products ci.product with
    | none => .error .productUnavailable
    | some product =>
      if product.isActive = false then .error .productUnavailable
      else if product.inventory.trackQuantity ∧ product.inventory.quantity < (ci.quantity : Int) then
        .error .insufficientStock
      else
        match buildOrderItems products rest with
        | .error e => .error e
        | .ok tail =>
          .ok ({ product := product.pid, name := product.name, price := product.price, quantity := ci.quantity, totalPrice := product.price * (ci.quantity : ℚ) } :: tail)

/-- Store state touched by order placement: the catalog, the cart of the
requesting account, and the order collection. -/
structure OrderState where
  products : List Product
  cart : Option Cart
  orders : List Order
  deriving DecidableEq, Repr

/-- createOrder handler: empty-cart guard, the pure validation pass, price
breakdown (flat 8 percent tax, free shipping strictly above 100, flat 10
otherwise), order creation in status pending, per-line stock decrement, and
the cart clear. Validation failures return before any mutation. -/
def createOrder (st : OrderState) (uid : Nat) (paymentMethod : String)
    (orderNumber : String) : (Except ApiError Order) × OrderState :=
  match st.cart with
  | none => (.error .emptyCart, st)
  | some cart =>
    if cart.items = [] then (.error .emptyCart, st)
    else
      match buildOrderItems st.products cart.items with
      | .error e => (.error e, st)
      | .ok orderItems =>
        let itemsPrice := (orderItems.map (fun i => i.totalPrice)).sum
        let taxPrice := (jsRound (itemsPrice * (8 / 100) * 100) : ℚ) / 100
        let shippingPrice : ℚ := if itemsPrice > 100 then 0 else 10
        let totalPrice := itemsPrice + taxPrice + shippingPrice
        let order : Order := {
          orderNumber := orderNumber
          user := uid
          items := orderItems
          paymentInfo := { method := paymentMethod, transactionId := none, paidAt := none }
          itemsPrice := itemsPrice
          taxPrice := taxPrice
          shippingPrice := shippingPrice
          totalPrice := totalPrice
          status := OrderStatus.pending
          isPaid := false
          isDelivered := false
          deliveredAt := none
          statusHistory := [] }
        let products1 := decrementInventory cart.items st.products
        let cart1 := saveCart { cart with items := [] }
        (.ok order, { products := products1, cart := some cart1, orders := st.orders ++ [order] })

/-- Webhook handler for a payment-intent-succeeded event: unconditionally
mark the order paid, record the transaction id and paid timestamp, set the
status to confirmed and save. -/
def handlePaymentSuccess (o : Order) (paymentIntentId : String) (now : Nat) : Order :=
  saveExistingOrder o.status now { o with
    isPaid := true
    paymentInfo := { o.paymentInfo with transactionId := some paymentIntentId, paidAt := some now }
    status := OrderStatus.confirmed }

/-- confirmPayment handler: ownership check, then on a gateway-reported
succeeded intent apply the same state update as the webhook path. -/
def confirmPayment (o : Order) (callerId : Nat) (paymentIntentId : String)
    (intentStatus : String) (now : Nat) : Except ApiError Order :=
  if o.user ≠ callerId then .error .notAuthorized
  else if intentStatus = "succeeded" then
    .ok (saveExistingOrder o.status now { o with
      isPaid := true
      paymentInfo := { o.paymentInfo with transactionId := some paymentIntentId, paidAt := some now }
      status := OrderStatus.confirmed })
  else .error .paymentNotSuccessful

/-- calculateShipping utility (utils/calculateShipping.js): free at or above
an items total of 100, otherwise a base fee of 10 plus 5 per started 5 units
of weight beyond 10, capped at 50. The spec describes the shipping policy in
exactly these terms. -/
def calculateShipping (products : List Product) (items : List CartItem) : ℚ :=
  let totalWeight := (items.map (fun i =>
    match findProduct products i.product with
    | some p => p.weightValue * (i.quantity : ℚ)
    | none => 0)).sum
  let itemsTotal := (items.map (fun i => i.totalPrice)).sum
  if itemsTotal ≥ 100 then 0
  else
    let shippingCost : ℚ := 10
    let shippingCost := if totalWeight > 10 then shippingCost + (⌈(totalWeight - 10) / 5⌉ : ℚ) * 5 else shippingCost
    min shippingCost 50

theorem findProduct_cons (x : Product) (xs : List Product) (pid : Nat) :
    findProduct (x :: xs) pid = if x.pid = pid then some x else findProduct xs pid := by
  by_cases h : x.pid = pid <;> simp [findProduct, List.find?_cons, h]

theorem findProduct_some_pid {products : List Product} {pid : Nat} {p : Product}
    (h : findProduct products pid = some p) : p.pid = pid := by
  have h0 : products.find? (fun q => q.pid == pid) = some p := h
  have h1 := List.find?_some h0
  simpa using h1

theorem replaceProduct_cons (q : Product) (rest : List Product) (newP : Product) :
    replaceProduct (q :: rest) newP =
      (if q.pid = newP.pid then newP else q) :: replaceProduct rest newP := rfl

theorem findProduct_replace_ne (products : List Product) (newP : Product) (pid : Nat)
    (h : pid ≠ newP.pid) :
    findProduct (replaceProduct products newP) pid = findProduct products pid := by
  induction products with
  | nil => rfl
  | cons q rest ih =>
    rw [replaceProduct_cons]
    by_cases hq : q.pid = newP.pid
    · rw [if_pos hq, findProduct_cons, findProduct_cons, ih]
      have h1 : ¬ newP.pid = pid := fun he => h he.symm
      have h2 : ¬ q.pid = pid := by rw [hq]; exact h1
      rw [if_neg h1, if_neg h2]
    · rw [if_neg hq, findProduct_cons, findProduct_cons, ih]

theorem findProduct_replace_eq (products : List Product) (newP p : Product)
    (h : findProduct products newP.pid = some p) :
    findProduct (replaceProduct products newP) newP.pid = some newP := by
  induction products with
  | nil => simp [findProduct] at h
  | cons q rest ih =>
    rw [findProduct_cons] at h
    rw [replaceProduct_cons]
    by_cases hq : q.pid = newP.pid
    · rw [if_pos hq, findProduct_cons, if_pos rfl]
    · rw [if_neg hq] at h
      rw [if_neg hq, findProduct_cons, if_neg hq]
      exact ih h

theorem stockLoop_cons (op : Int → Nat → Int) (l : Nat × Nat) (ls : List (Nat × Nat))
    (products : List Product) :
    stockLoop op (l :: ls) products = stockLoop op ls (stockStep op products l) := rfl

theorem findProduct_stockStep_ne (op : Int → Nat → Int) (prods : List Product)
    (l : Nat × Nat) (pid : Nat) (h : pid ≠ l.1) :
    findProduct (stockStep op prods l) pid = findProduct prods pid := by
  unfold stockStep
  cases hf : findProduct prods l.1 with
  | none => rfl
  | some p =>
    have hp := findProduct_some_pid hf
    cases ht : p.inventory.trackQuantity with
    | false => simp [ht]
    | true =>
      simp only [ht, if_true]
      apply findProduct_replace_ne
      show pid ≠ p.pid
      rw [hp]
      exact h

theorem stockStep_find_tracked (op : Int → Nat → Int) (prods : List Product)
    (l : Nat × Nat) (p : Product) (hf : findProduct prods l.1 = some p)
    (ht : p.inventory.trackQuantity = true) :
    findProduct (stockStep op prods l) l.1 =
      some { p with inventory := { p.inventory with quantity := op p.inventory.quantity l.2 } } := by
  have hp := findProduct_some_pid hf
  have hstep : stockStep op prods l =
      replaceProduct prods { p with inventory := { p.inventory with quantity := op p.inventory.quantity l.2 } } := by
    simp [stockStep, hf, ht]
  rw [hstep]
  have h1 : findProduct prods ({ p with inventory := { p.inventory with quantity := op p.inventory.quantity l.2 } } : Product).pid = some p := by
    show findProduct prods p.pid = some p
    rw [hp]
    exact hf
  have h2 := findProduct_replace_eq prods _ p h1
  have hpid : ({ p with inventory := { p.inventory with quantity := op p.inventory.quantity l.2 } } : Product).pid = l.1 := hp
  rw [← hpid]
  exact h2

theorem stockLoop_not_mem (op : Int → Nat → Int) (lines : List (Nat × Nat))
    (products : List Product) (pid : Nat) (h : pid ∉ lines.map Prod.fst) :
    findProduct (stockLoop op lines products) pid = findProduct products pid := by
  induction lines generalizing products with
  | nil => rfl
  | cons l ls ih =>
    simp only [List.map_cons, List.mem_cons] at h
    push_neg at h
    obtain ⟨h1, h2⟩ := h
    rw [stockLoop_cons, ih _ h2]
    exact findProduct_stockStep_ne op products l pid h1

theorem stockLoop_find (op : Int → Nat → Int) (lines : List (Nat × Nat))
    (products : List Product) (hnd : (lines.map Prod.fst).Nodup)
    (l : Nat × Nat) (hl : l ∈ lines) (p : Product)
    (hp : findProduct products l.1 = some p) (ht : p.inventory.trackQuantity = true) :
    findProduct (stockLoop op lines products) l.1 =
      some { p with inventory := { p.inventory with quantity := op p.inventory.quantity l.2 } } := by
  induction lines generalizing products with
  | nil => cases hl
  | cons l0 ls ih =>
    simp only [List.map_cons, List.nodup_cons] at hnd
    obtain ⟨h0, hnd1⟩ := hnd
    rw [stockLoop_cons]
    rcases List.mem_cons.mp hl with rfl | hmem
    · rw [stockLoop_not_mem _ _ _ _ h0]
      exact stockStep_find_tracked op products l p hp ht
    · have hne : l.1 ≠ l0.1 := by
        intro he
        exact h0 (he ▸ List.mem_map.mpr ⟨l, hmem, rfl⟩)
      have hp1 : findProduct (stockStep op products l0) l.1 = some p := by
        rw [findProduct_stockStep_ne op products l0 l.1 hne]
        exact hp
      exact ih (stockStep op products l0) hnd1 hmem hp1

theorem cartInv_saveCart (c : Cart) : cartInv (saveCart c) := by
  refine ⟨rfl, rfl, ?_⟩
  intro i hi
  simp only [saveCart, List.mem_map] at hi
  obtain ⟨j, _, rfl⟩ := hi
  rfl

theorem saveCartItem_of_inv (i : CartItem) (h : i.totalPrice = (i.quantity : ℚ) * i.price) :
    saveCartItem i = i := by
  cases i
  simp only [saveCartItem] at *
  simp [h.symm]

theorem saveCart_of_inv (c : Cart) (h : cartInv c) : saveCart c = c := by
  obtain ⟨h1, h2, h3⟩ := h
  have hitems : c.items.map saveCartItem = c.items := by
    have h0 : c.items.map saveCartItem = c.items.map id :=
      List.map_congr_left (fun i hi => saveCartItem_of_inv i (h3 i hi))
    simpa using h0
  cases c
  simp_all [saveCart]

theorem cartInv_createEmptyCart (uid : Nat) : cartInv (createEmptyCart uid) :=
  cartInv_saveCart _

theorem addToCart_ok_shape (products : List Product) (cart : Option Cart) (uid productId quantity : Nat)
    (c1 : Cart) (h : addToCart products cart uid productId quantity = .ok c1) :
    ∃ c0, c1 = saveCart c0 := by
  cases cart <;>
    (simp only [addToCart] at h
     repeat' split at h) <;>
    first
      | exact ⟨_, h.symm⟩
      | (rw [Except.ok.injEq] at h; exact ⟨_, h.symm⟩)
      | simp at h

theorem updateCartItem_ok_shape (products : List Product) (cart : Option Cart) (productId quantity : Nat)
    (c1 : Cart) (h : updateCartItem products cart productId quantity = .ok c1) :
    ∃ c0, c1 = saveCart c0 := by
  cases cart <;>
    (simp only [updateCartItem] at h
     repeat' split at h) <;>
    first
      | exact ⟨_, h.symm⟩
      | (rw [Except.ok.injEq] at h; exact ⟨_, h.symm⟩)
      | simp at h

theorem removeFromCart_ok_shape (cart : Option Cart) (productId : Nat)
    (c1 : Cart) (h : removeFromCart cart productId = .ok c1) :
    ∃ c0, c1 = saveCart c0 := by
  cases cart <;> simp only [removeFromCart] at h <;>
    first
      | exact ⟨_, h.symm⟩
      | (rw [Except.ok.injEq] at h; exact ⟨_, h.symm⟩)
      | simp at h

theorem createOrder_ok_cart_shape (st : OrderState) (uid : Nat) (pm n : String)
    (ord : Order) (st1 : OrderState) (h : createOrder st uid pm n = (.ok ord, st1)) :
    ∃ c0, st1.cart = some (saveCart c0) := by
  unfold createOrder at h
  repeat' split at h
  · exact absurd (congrArg Prod.fst h) (by simp)
  · exact absurd (congrArg Prod.fst h) (by simp)
  · exact absurd (congrArg Prod.fst h) (by simp)
  · simp only at h
    rw [Prod.mk.injEq] at h
    obtain ⟨h1, h2⟩ := h
    exact ⟨_, by rw [← h2]⟩

/-- C6: after every mutating cart operation (get with pruning, add, update,
remove, clear, sync, and the cart clear during order placement), the
persisted cart satisfies: totalAmount equals the sum of the line totalPrice
values, totalItems equals the sum of the line quantities, and every line
totalPrice equals its quantity times its unit price. -/
theorem c6_cart_totals_invariant :
    (∀ products cart uid, (∀ c, cart = some c → cartInv c) →
        cartInv (getCart products cart uid)) ∧
    (∀ products cart uid productId quantity c1,
        addToCart products cart uid productId quantity = .ok c1 → cartInv c1) ∧
    (∀ products cart productId quantity c1,
        updateCartItem products cart productId quantity = .ok c1 → cartInv c1) ∧
    (∀ cart productId c1, removeFromCart cart productId = .ok c1 → cartInv c1) ∧
    (∀ cart uid, cartInv (clearCart cart uid)) ∧
    (∀ products cart uid items, cartInv (syncCart products cart uid items)) ∧
    (∀ st uid pm n ord st1 c1, createOrder st uid pm n = (.ok ord, st1) →
        st1.cart = some c1 → cartInv c1) := by
  refine ⟨?_, ?_, ?_, ?_, ?_, ?_, ?_⟩
  · intro products cart uid h
    cases cart with
    | none =>
      simp only [getCart]
      split
      · exact cartInv_saveCart _
      · exact cartInv_createEmptyCart uid
    | some c =>
      simp only [getCart]
      split
      · exact cartInv_saveCart _
      · exact h c rfl
  · intro products cart uid productId quantity c1 h
    obtain ⟨c0, rfl⟩ := addToCart_ok_shape products cart uid productId quantity c1 h
    exact cartInv_saveCart c0
  · intro products cart productId quantity c1 h
    obtain ⟨c0, rfl⟩ := updateCartItem_ok_shape products cart productId quantity c1 h
    exact cartInv_saveCart c0
  · intro cart productId c1 h
    obtain ⟨c0, rfl⟩ := removeFromCart_ok_shape cart productId c1 h
    exact cartInv_saveCart c0
  · intro cart uid
    cases cart with
    | none => exact cartInv_saveCart _
    | some c => exact cartInv_saveCart _
  · intro products cart uid items
    cases cart with
    | none => exact cartInv_saveCart _
    | some c => exact cartInv_saveCart _
  · intro st uid pm n ord st1 c1 h hc1
    obtain ⟨c0, hshape⟩ := createOrder_ok_cart_shape st uid pm n ord st1 h
    rw [hshape] at hc1
    rw [Option.some.injEq] at hc1
    rw [← hc1]
    exact cartInv_saveCart _

theorem c6_witness : cartInv (Cart.mk 7 [CartItem.mk 1 2 3 6] 2 6) :=
  c6_cart_totals_invariant.2.1 [Product.mk 1 "A" 3 1 (Inventory.mk 5 true) true]
    none 7 1 2 (Cart.mk 7 [CartItem.mk 1 2 3 6] 2 6)
    (by norm_num [addToCart, findProduct, createEmptyCart, saveCart, saveCartItem, List.find?])

/-- C9 counterexample: an account that has no cart document at all (hence no
cart line items) gets a cart-not-found error from removeFromCart instead of
the silent success the claim asserts for every account. -/
theorem c9_counterexample_no_cart_document :
    removeFromCart none 1 = .error ApiError.cartNotFound := rfl

/-- C9 (amended): for every account that has a cart document, removing a
product that is absent from the cart (in particular from an empty cart)
succeeds silently and leaves the cart unchanged; an account with no cart
document instead gets a not-found error. -/
theorem c9_remove_absent_item_idempotent (c : Cart) (productId : Nat)
    (hinv : cartInv c) (habs : ∀ i ∈ c.items, i.product ≠ productId) :
    removeFromCart (some c) productId = .ok c := by
  have hfilter : c.items.filter (fun i => !(i.product == productId)) = c.items := by
    apply List.filter_eq_self.mpr
    intro i hi
    simpa using habs i hi
  show Except.ok (saveCart { c with items := c.items.filter (fun i => !(i.product == productId)) }) = .ok c
  rw [hfilter]
  have heta : ({ c with items := c.items } : Cart) = c := rfl
  rw [heta, saveCart_of_inv c hinv]

theorem c9_witness :
    removeFromCart (some (Cart.mk 7 [CartItem.mk 2 1 4 4] 1 4)) 1 =
      .ok (Cart.mk 7 [CartItem.mk 2 1 4 4] 1 4) :=
  c9_remove_absent_item_idempotent (Cart.mk 7 [CartItem.mk 2 1 4 4] 1 4) 1
    (by norm_num [cartInv]) (by norm_num)

/-- C7: transitioning an order to delivered sets isDelivered and stamps
deliveredAt with the save time; transitioning an already delivered order to
delivered again leaves isDelivered and deliveredAt unchanged. -/
theorem c7_delivered_idempotent (o : Order) (note : Option String) (now : Nat) :
    (updateOrderStatus o .delivered note now).isDelivered = true ∧
    (o.isDelivered = false → (updateOrderStatus o .delivered note now).deliveredAt = some now) ∧
    (o.isDelivered = true → (updateOrderStatus o .delivered note now).isDelivered = o.isDelivered ∧
      (updateOrderStatus o .delivered note now).deliveredAt = o.deliveredAt) := by
  unfold updateOrderStatus saveExistingOrder
  cases note <;> cases hd : o.isDelivered <;>
    by_cases hs : OrderStatus.delivered = o.status <;>
    simp [hs, hd]

theorem c7_witness :
    (updateOrderStatus (Order.mk "MS10" 9 [] (PaymentInfo.mk "stripe" none none) 0 0 0 0
        OrderStatus.shipped true false none []) .delivered none 7).deliveredAt = some 7 ∧
    (updateOrderStatus (Order.mk "MS10" 9 [] (PaymentInfo.mk "stripe" none none) 0 0 0 0
        OrderStatus.delivered true true (some 3) []) .delivered none 7).deliveredAt = some 3 := by
  constructor
  · exact (c7_delivered_idempotent (Order.mk "MS10" 9 [] (PaymentInfo.mk "stripe" none none) 0 0 0 0
      OrderStatus.shipped true false none []) none 7).2.1 rfl
  · have h := (c7_delivered_idempotent (Order.mk "MS10" 9 [] (PaymentInfo.mk "stripe" none none) 0 0 0 0
      OrderStatus.delivered true true (some 3) []) none 7).2.2 rfl
    exact h.2

/-- Concrete already-confirmed, already-paid order used for the payment
replay claim. -/
def c3_ord : Order :=
  Order.mk "MS11" 9 [] (PaymentInfo.mk "stripe" (some "pi_1") (some 100)) 0 0 0 0
    OrderStatus.confirmed true false none [StatusEntry.mk OrderStatus.confirmed 50 none]

/-- C3 counterexample: replaying the same payment-succeeded webhook on an
already confirmed and paid order overwrites paidAt with the processing time
of the second delivery, so the second application is not a no-op on the
order state. -/
theorem c3_counterexample_paidAt_overwritten :
    (handlePaymentSuccess c3_ord "pi_1" 200).paymentInfo.paidAt = some 200 ∧
    c3_ord.paymentInfo.paidAt = some 100 ∧
    (handlePaymentSuccess c3_ord "pi_1" 200).paymentInfo.paidAt ≠ c3_ord.paymentInfo.paidAt := by
  refine ⟨rfl, rfl, by decide⟩

/-- C3 (amended): replaying the payment-succeeded webhook on an already
confirmed, already paid order keeps isPaid true, leaves the transaction id
and the status history unchanged and the status confirmed, but overwrites
paidAt with the time of the second processing. -/
theorem c3_webhook_replay (o : Order) (pid : String) (now : Nat)
    (hs : o.status = .confirmed) (_hp : o.isPaid = true)
    (ht : o.paymentInfo.transactionId = some pid) :
    (handlePaymentSuccess o pid now).isPaid = true ∧
    (handlePaymentSuccess o pid now).paymentInfo.transactionId = o.paymentInfo.transactionId ∧
    (handlePaymentSuccess o pid now).status = .confirmed ∧
    (handlePaymentSuccess o pid now).statusHistory = o.statusHistory ∧
    (handlePaymentSuccess o pid now).paymentInfo.paidAt = some now := by
  unfold handlePaymentSuccess saveExistingOrder
  simp [hs, ht]

theorem c3_witness :
    (handlePaymentSuccess c3_ord "pi_1" 300).isPaid = true ∧
    (handlePaymentSuccess c3_ord "pi_1" 300).paymentInfo.transactionId = c3_ord.paymentInfo.transactionId ∧
    (handlePaymentSuccess c3_ord "pi_1" 300).status = .confirmed ∧
    (handlePaymentSuccess c3_ord "pi_1" 300).statusHistory = c3_ord.statusHistory ∧
    (handlePaymentSuccess c3_ord "pi_1" 300).paymentInfo.paidAt = some 300 :=
  c3_webhook_replay c3_ord "pi_1" 300 rfl rfl rfl

/-- C10: both payment-success paths unconditionally set the status to
confirmed, mark the order paid and overwrite the transaction id and paid
timestamp, whatever the current status is, and the client-confirmed path on
a succeeded intent produces exactly the webhook-path result. -/
theorem c10_payment_success_always_confirms (o : Order) (pid : String) (now : Nat)
    (callerId : Nat) (hown : o.user = callerId) :
    (handlePaymentSuccess o pid now).status = .confirmed ∧
    (handlePaymentSuccess o pid now).isPaid = true ∧
    (handlePaymentSuccess o pid now).paymentInfo.transactionId = some pid ∧
    (handlePaymentSuccess o pid now).paymentInfo.paidAt = some now ∧
    confirmPayment o callerId pid "succeeded" now = .ok (handlePaymentSuccess o pid now) := by
  unfold handlePaymentSuccess confirmPayment saveExistingOrder
  by_cases hs : OrderStatus.confirmed = o.status
  · simp [← hs, hown]
  · simp [hs, hown]

/-- Concrete delivered order used to witness the late-payment claim. -/
def c10_ord : Order :=
  Order.mk "MS12" 8 [] (PaymentInfo.mk "stripe" none none) 0 0 0 0
    OrderStatus.delivered false true (some 10) []

theorem c10_witness :
    (handlePaymentSuccess c10_ord "pi_2" 500).status = .confirmed ∧
    (handlePaymentSuccess c10_ord "pi_2" 500).isPaid = true ∧
    (handlePaymentSuccess c10_ord "pi_2" 500).paymentInfo.transactionId = some "pi_2" ∧
    (handlePaymentSuccess c10_ord "pi_2" 500).paymentInfo.paidAt = some 500 ∧
    confirmPayment c10_ord 8 "pi_2" "succeeded" 500 = .ok (handlePaymentSuccess c10_ord "pi_2" 500) :=
  c10_payment_success_always_confirms c10_ord "pi_2" 500 8 rfl

/-- Concrete pending order owned by account 9, with an empty history. -/
def c2_ord : Order :=
  Order.mk "MS13" 9 [] (PaymentInfo.mk "stripe" none none) 0 0 0 0
    OrderStatus.pending false false none []

/-- C2: the code appends TWO status-history entries, not one, both for an
admin status update that supplies a note (the manual push with the note plus
the pre-save hook push without it) and for a cancellation (the manual
cancelled push plus the hook push), contradicting the exactly-one-entry
invariant. -/
theorem c2_two_history_entries :
    (updateOrderStatus c2_ord .processing (some "packed") 5).statusHistory.length = 2 ∧
    ((cancelOrder c2_ord 9 Role.customer [] 6).1.toOption.map
      (fun o1 => o1.statusHistory.length)) = some 2 := by
  exact ⟨rfl, rfl⟩

theorem buildOrderItems_insufficient (products : List Product) (items : List CartItem)
    (hact : ∀ i ∈ items, ∃ p, findProduct products i.product = some p ∧ p.isActive = true)
    (hins : ∃ i ∈ items, ∃ p, findProduct products i.product = some p ∧
        p.inventory.trackQuantity = true ∧ p.inventory.quantity < (i.quantity : Int)) :
    buildOrderItems products items = .error ApiError.insufficientStock := by
  induction items with
  | nil => simp at hins
  | cons ci rest ih =>
    obtain ⟨p, hp, hpa⟩ := hact ci (List.mem_cons_self ci rest)
    by_cases hbad : p.inventory.trackQuantity = true ∧ p.inventory.quantity < (ci.quantity : Int)
    · simp [buildOrderItems, hp, hpa, hbad]
    · have hins1 : ∃ i ∈ rest, ∃ q, findProduct products i.product = some q ∧
          q.inventory.trackQuantity = true ∧ q.inventory.quantity < (i.quantity : Int) := by
        obtain ⟨i, hi, q, hq, hqt, hql⟩ := hins
        rcases List.mem_cons.mp hi with rfl | hi2
        · rw [hp] at hq
          injection hq with hq
          subst hq
          exact absurd ⟨hqt, hql⟩ hbad
        · exact ⟨i, hi2, q, hq, hqt, hql⟩
      have ih1 := ih (fun i hi => hact i (List.mem_cons_of_mem ci hi)) hins1
      simp [buildOrderItems, hp, hpa, hbad, ih1]

/-- C1 (amended): when every cart line references an existing active product
and at least one stock-tracked line requests more than the available
quantity, createOrder fails with the insufficient-stock error and returns
the store state unchanged (no order created, no stock changed, cart
untouched); when instead an earlier line references a missing or inactive
product, the validation loop reports product-unavailable for that line
first, still with no side effects. -/
theorem c1_insufficient_stock_no_side_effects (st : OrderState) (uid : Nat) (pm n : String)
    (c : Cart) (hc : st.cart = some c)
    (hact : ∀ i ∈ c.items, ∃ p, findProduct st.products i.product = some p ∧ p.isActive = true)
    (hins : ∃ i ∈ c.items, ∃ p, findProduct st.products i.product = some p ∧
        p.inventory.trackQuantity = true ∧ p.inventory.quantity < (i.quantity : Int)) :
    createOrder st uid pm n = (.error ApiError.insufficientStock, st) := by
  have hne : c.items ≠ [] := by
    obtain ⟨i, hi, _⟩ := hins
    intro h0
    rw [h0] at hi
    simp at hi
  have hb := buildOrderItems_insufficient st.products c.items hact hins
  unfold createOrder
  rw [hc]
  simp [hne, hb]

/-- Catalog for the C1 counterexample: product 1 is inactive, product 2 is
active, stock tracked and out of stock. -/
def c1_products : List Product :=
  [Product.mk 1 "Chicken" 10 1 (Inventory.mk 5 true) false,
   Product.mk 2 "Beef" 10 1 (Inventory.mk 0 true) true]

/-- Cart for the C1 counterexample: line 1 references the inactive product,
line 2 the understocked one. -/
def c1_cart : Cart :=
  Cart.mk 7 [CartItem.mk 1 1 10 10, CartItem.mk 2 1 10 10] 2 20

def c1_st : OrderState := OrderState.mk c1_products (some c1_cart) []

/-- C1 counterexample: this cart does contain a stock-tracked line with
available quantity below the requested quantity, yet createOrder reports
product-unavailable (for the earlier inactive line), not insufficient
stock. -/
theorem c1_counterexample_earlier_line_wins :
    (∃ i ∈ c1_cart.items, ∃ p, findProduct c1_st.products i.product = some p ∧
        p.inventory.trackQuantity = true ∧ p.inventory.quantity < (i.quantity : Int)) ∧
    createOrder c1_st 7 "stripe" "MS1" = (.error ApiError.productUnavailable, c1_st) ∧
    ApiError.productUnavailable ≠ ApiError.insufficientStock := by
  refine ⟨⟨CartItem.mk 2 1 10 10, by decide, Product.mk 2 "Beef" 10 1 (Inventory.mk 0 true) true, rfl, rfl, by decide⟩, rfl, by decide⟩

/-- Catalog for the C1 witness: both products active, product 2 out of
stock. -/
def c1w_products : List Product :=
  [Product.mk 1 "Chicken" 10 1 (Inventory.mk 5 true) true,
   Product.mk 2 "Beef" 10 1 (Inventory.mk 0 true) true]

def c1w_st : OrderState := OrderState.mk c1w_products (some c1_cart) []

theorem c1_witness :
    createOrder c1w_st 7 "stripe" "MS1" = (.error ApiError.insufficientStock, c1w_st) :=
  c1_insufficient_stock_no_side_effects c1w_st 7 "stripe" "MS1" c1_cart rfl
    (by
      intro i hi
      fin_cases hi
      · exact ⟨Product.mk 1 "Chicken" 10 1 (Inventory.mk 5 true) true, rfl, rfl⟩
      · exact ⟨Product.mk 2 "Beef" 10 1 (Inventory.mk 0 true) true, rfl, rfl⟩)
    ⟨CartItem.mk 2 1 10 10, by decide, Product.mk 2 "Beef" 10 1 (Inventory.mk 0 true) true, rfl, rfl, by decide⟩

theorem buildOrderItems_ok (products : List Product) (items : List CartItem)
    (hok : ∀ i ∈ items, ∃ p, findProduct products i.product = some p ∧ p.isActive = true ∧
        (p.inventory.trackQuantity = true → (i.quantity : Int) ≤ p.inventory.quantity)) :
    ∃ ois, buildOrderItems products items = .ok ois ∧
      (ois.map (fun i => i.totalPrice)).sum =
        (items.map (fun i =>
          match findProduct products i.product with
          | some p => p.price * (i.quantity : ℚ)
          | none => 0)).sum := by
  induction items with
  | nil => exact ⟨[], rfl, rfl⟩
  | cons ci rest ih =>
    obtain ⟨p, hp, hpa, hpq⟩ := hok ci (List.mem_cons_self ci rest)
    obtain ⟨tail, htl, hsum⟩ := ih (fun i hi => hok i (List.mem_cons_of_mem ci hi))
    have hnotbad : ¬ (p.inventory.trackQuantity = true ∧ p.inventory.quantity < (ci.quantity : Int)) := by
      rintro ⟨ht, hlt⟩
      exact absurd (hpq ht) (not_le.mpr hlt)
    refine ⟨{ product := p.pid, name := p.name, price := p.price, quantity := ci.quantity, totalPrice := p.price * (ci.quantity : ℚ) } :: tail, ?_, ?_⟩
    · simp [buildOrderItems, hp, hpa, hnotbad, htl]
    · simp only [List.map_cons, List.sum_cons, hsum, hp]

/-- Order document persisted by the success path of createOrder (status
pending, unpaid, empty history, price breakdown computed from the snapshot
lines). -/
def createOrderDoc (uid : Nat) (pm n : String) (ois : List OrderItem) : Order :=
  let itemsPrice := (ois.map (fun i => i.totalPrice)).sum
  let taxPrice := (jsRound (itemsPrice * (8 / 100) * 100) : ℚ) / 100
  let shippingPrice : ℚ := if itemsPrice > 100 then 0 else 10
  { orderNumber := n
    user := uid
    items := ois
    paymentInfo := { method := pm, transactionId := none, paidAt := none }
    itemsPrice := itemsPrice
    taxPrice := taxPrice
    shippingPrice := shippingPrice
    totalPrice := itemsPrice + taxPrice + shippingPrice
    status := OrderStatus.pending
    isPaid := false
    isDelivered := false
    deliveredAt := none
    statusHistory := [] }

theorem createOrder_ok_eq (st : OrderState) (uid : Nat) (pm n : String) (c : Cart)
    (ois : List OrderItem) (hc : st.cart = some c) (hne : c.items ≠ [])
    (hb : buildOrderItems st.products c.items = .ok ois) :
    createOrder st uid pm n =
      (.ok (createOrderDoc uid pm n ois),
       OrderState.mk (decrementInventory c.items st.products)
         (some (saveCart { c with items := [] }))
         (st.orders ++ [createOrderDoc uid pm n ois])) := by
  unfold createOrder createOrderDoc
  rw [hc]
  simp only [hne, if_false, hb]

/-- C4: for a non-empty cart whose lines all reference active products with
sufficient tracked stock (and pairwise distinct products), createOrder
succeeds, the order itemsPrice is the sum over lines of current product
price times quantity, the persisted cart is empty afterwards, and every
stock-tracked product referenced by a line has its quantity decreased by
exactly the ordered quantity. -/
theorem c4_order_placement_success (st : OrderState) (uid : Nat) (pm n : String) (c : Cart)
    (hc : st.cart = some c) (hne : c.items ≠ [])
    (hok : ∀ i ∈ c.items, ∃ p, findProduct st.products i.product = some p ∧ p.isActive = true ∧
        (p.inventory.trackQuantity = true → (i.quantity : Int) ≤ p.inventory.quantity))
    (hnd : (c.items.map (fun i => i.product)).Nodup) :
    ∃ ord st1, createOrder st uid pm n = (.ok ord, st1) ∧
      ord.itemsPrice = (c.items.map (fun i =>
        match findProduct st.products i.product with
        | some p => p.price * (i.quantity : ℚ)
        | none => 0)).sum ∧
      (∃ c1, st1.cart = some c1 ∧ c1.items = []) ∧
      ∀ i ∈ c.items, ∀ p, findProduct st.products i.product = some p →
        p.inventory.trackQuantity = true →
        findProduct st1.products i.product =
          some { p with inventory := { p.inventory with quantity := p.inventory.quantity - (i.quantity : Int) } } := by
  obtain ⟨ois, hb, hsum⟩ := buildOrderItems_ok st.products c.items hok
  refine ⟨createOrderDoc uid pm n ois,
    OrderState.mk (decrementInventory c.items st.products)
      (some (saveCart { c with items := [] }))
      (st.orders ++ [createOrderDoc uid pm n ois]),
    createOrder_ok_eq st uid pm n c ois hc hne hb, ?hip, ?hcart, ?hdec⟩
  case hip => exact hsum
  case hcart => exact ⟨saveCart { c with items := [] }, rfl, rfl⟩
  case hdec =>
    intro i hi p hp ht
    show findProduct (decrementInventory c.items st.products) i.product = _
    unfold decrementInventory
    have hmap : ((c.items.map (fun i => (i.product, i.quantity))).map Prod.fst) =
        c.items.map (fun i => i.product) := by
      rw [List.map_map]
      rfl
    have hnd1 : ((c.items.map (fun i => (i.product, i.quantity))).map Prod.fst).Nodup := by
      rw [hmap]
      exact hnd
    have hmem : (i.product, i.quantity) ∈ c.items.map (fun i => (i.product, i.quantity)) :=
      List.mem_map.mpr ⟨i, hi, rfl⟩
    exact stockLoop_find (fun q m => q - (m : Int))
      (c.items.map (fun i => (i.product, i.quantity))) st.products hnd1
      (i.product, i.quantity) hmem p hp ht

/-- Catalog and cart of the spec example: productA price 10 and stock 5,
productB price 5 and stock 3; cart lines qty 2 of A and qty 1 of B. -/
def c4_products : List Product :=
  [Product.mk 1 "A" 10 2 (Inventory.mk 5 true) true,
   Product.mk 2 "B" 5 1 (Inventory.mk 3 true) true]

def c4_cart : Cart :=
  Cart.mk 7 [CartItem.mk 1 2 10 20, CartItem.mk 2 1 5 5] 3 25

def c4_st : OrderState := OrderState.mk c4_products (some c4_cart) []

theorem c4_witness :
    (∃ ord st1, createOrder c4_st 7 "stripe" "MS2" = (.ok ord, st1) ∧
      ord.itemsPrice = (c4_cart.items.map (fun i =>
        match findProduct c4_st.products i.product with
        | some p => p.price * (i.quantity : ℚ)
        | none => 0)).sum ∧
      (∃ c1, st1.cart = some c1 ∧ c1.items = []) ∧
      ∀ i ∈ c4_cart.items, ∀ p, findProduct c4_st.products i.product = some p →
        p.inventory.trackQuantity = true →
        findProduct st1.products i.product =
          some { p with inventory := { p.inventory with quantity := p.inventory.quantity - (i.quantity : Int) } }) ∧
    (c4_cart.items.map (fun i =>
        match findProduct c4_st.products i.product with
        | some p => p.price * (i.quantity : ℚ)
        | none => 0)).sum = 25 := by
  constructor
  · exact c4_order_placement_success c4_st 7 "stripe" "MS2" c4_cart rfl (by decide)
      (by
        intro i hi
        fin_cases hi
        · exact ⟨Product.mk 1 "A" 10 2 (Inventory.mk 5 true) true, rfl, rfl, by decide⟩
        · exact ⟨Product.mk 2 "B" 5 1 (Inventory.mk 3 true) true, rfl, rfl, by decide⟩)
      (by decide)
  · show ((10 : ℚ) * (2 : Nat) + ((5 : ℚ) * (1 : Nat) + 0)) = 25
    norm_num

/-- C5: with the caller owning the order or being an admin, cancellation
succeeds exactly when the status is pending or confirmed; in any other
status it fails with the invalid-transition error and returns the catalog
unchanged; on success the saved order is cancelled and every line whose
product still exists and tracks quantity has its stock incremented by the
ordered quantity. -/
theorem c5_cancellation (o : Order) (callerId : Nat) (role : Role)
    (products : List Product) (now : Nat)
    (hauth : o.user = callerId ∨ role = Role.admin)
    (hnd : (o.items.map (fun i => i.product)).Nodup) :
    (¬(o.status = .pending ∨ o.status = .confirmed) →
        cancelOrder o callerId role products now = (.error ApiError.invalidTransition, products)) ∧
    ((o.status = .pending ∨ o.status = .confirmed) →
        ∃ o1, cancelOrder o callerId role products now = (.ok o1, restoreInventory o.items products) ∧
          o1.status = .cancelled ∧
          ∀ i ∈ o.items, ∀ p, findProduct products i.product = some p →
            p.inventory.trackQuantity = true →
            findProduct (restoreInventory o.items products) i.product =
              some { p with inventory := { p.inventory with quantity := p.inventory.quantity + (i.quantity : Int) } }) := by
  have hauthc : ¬(o.user ≠ callerId ∧ role ≠ Role.admin) := by
    rcases hauth with h | h
    · intro hcon
      exact hcon.1 h
    · intro hcon
      exact hcon.2 h
  constructor
  · intro hbad
    push_neg at hbad
    unfold cancelOrder
    rw [if_neg hauthc, if_pos ⟨hbad.1, hbad.2⟩]
  · intro hgood
    have hcond : ¬(o.status ≠ .pending ∧ o.status ≠ .confirmed) := by
      rcases hgood with h | h
      · intro hcon
        exact hcon.1 h
      · intro hcon
        exact hcon.2 h
    refine ⟨saveExistingOrder o.status now
      { o with
        status := OrderStatus.cancelled
        statusHistory := o.statusHistory ++
          [{ status := OrderStatus.cancelled, date := now,
             note := some (if role = Role.admin then "Cancelled by admin" else "Cancelled by customer") }] },
      ?_, ?_, ?_⟩
    · unfold cancelOrder
      rw [if_neg hauthc, if_neg hcond]
    · show (saveExistingOrder o.status now _).status = .cancelled
      unfold saveExistingOrder
      rcases hgood with h | h <;> simp [h]
    · intro i hi p hp ht
      unfold restoreInventory
      have hmap : ((o.items.map (fun i => (i.product, i.quantity))).map Prod.fst) =
          o.items.map (fun i => i.product) := by
        rw [List.map_map]
        rfl
      have hnd1 : ((o.items.map (fun i => (i.product, i.quantity))).map Prod.fst).Nodup := by
        rw [hmap]
        exact hnd
      have hmem : (i.product, i.quantity) ∈ o.items.map (fun i => (i.product, i.quantity)) :=
        List.mem_map.mpr ⟨i, hi, rfl⟩
      exact stockLoop_find (fun q m => q + (m : Int))
        (o.items.map (fun i => (i.product, i.quantity))) products hnd1
        (i.product, i.quantity) hmem p hp ht

/-- Tracked product with one unit of stock, used for the cancellation
witness. -/
def c5_prod : Product := Product.mk 3 "Ham" 12 1 (Inventory.mk 1 true) true

/-- Pending order of account 9 with a single line of two units of the
tracked product. -/
def c5_ord : Order :=
  Order.mk "MS14" 9 [OrderItem.mk 3 "Ham" 12 2 24] (PaymentInfo.mk "stripe" none none)
    24 0 0 24 OrderStatus.pending false false none []

/-- The same order already shipped. -/
def c5_ordShipped : Order :=
  Order.mk "MS14" 9 [OrderItem.mk 3 "Ham" 12 2 24] (PaymentInfo.mk "stripe" none none)
    24 0 0 24 OrderStatus.shipped false false none []

theorem c5_witness :
    (∃ o1, cancelOrder c5_ord 9 Role.customer [c5_prod] 6 =
        (.ok o1, restoreInventory c5_ord.items [c5_prod]) ∧
      o1.status = .cancelled ∧
      ∀ i ∈ c5_ord.items, ∀ p, findProduct [c5_prod] i.product = some p →
        p.inventory.trackQuantity = true →
        findProduct (restoreInventory c5_ord.items [c5_prod]) i.product =
          some { p with inventory := { p.inventory with quantity := p.inventory.quantity + (i.quantity : Int) } }) ∧
    cancelOrder c5_ordShipped 9 Role.customer [c5_prod] 6 =
      (.error ApiError.invalidTransition, [c5_prod]) := by
  constructor
  · exact (c5_cancellation c5_ord 9 Role.customer [c5_prod] 6 (Or.inl rfl) (by decide)).2
      (Or.inl rfl)
  · exact (c5_cancellation c5_ordShipped 9 Role.customer [c5_prod] 6 (Or.inl rfl) (by decide)).1
      (by decide)

/-- C8 (amended): the shipping price stored on a created order depends only
on the items price: zero when the items price is strictly above 100 and a
flat 10 otherwise; the total weight of the items is never consulted (the
weight-tier calculateShipping utility exists in the repository but is not
invoked by createOrder). -/
theorem c8_flat_shipping (st : OrderState) (uid : Nat) (pm n : String) (ord : Order)
    (st1 : OrderState) (h : createOrder st uid pm n = (.ok ord, st1)) :
    ord.shippingPrice = if ord.itemsPrice > 100 then 0 else 10 := by
  unfold createOrder at h
  repeat' split at h
  · exact absurd (congrArg Prod.fst h) (by simp)
  · exact absurd (congrArg Prod.fst h) (by simp)
  · exact absurd (congrArg Prod.fst h) (by simp)
  · simp only at h
    rw [Prod.mk.injEq] at h
    obtain ⟨h1, h2⟩ := h
    rw [Except.ok.injEq] at h1
    rw [← h1]

/-- Heavy single-product catalog for the shipping counterexample: weight 5
per unit, price 10, ample stock. -/
def c8_products : List Product := [Product.mk 1 "Goat" 10 5 (Inventory.mk 10 true) true]

/-- Cart with five units: items total 50, total weight 25. -/
def c8_cart : Cart := Cart.mk 7 [CartItem.mk 1 5 10 50] 5 50

def c8_st : OrderState := OrderState.mk c8_products (some c8_cart) []

/-- C8 counterexample: for this cart the spec policy (the calculateShipping
utility: base 10 plus the weight-tier surcharge for 25 units of weight)
gives 25, but the order created by createOrder carries shippingPrice 10 —
the weight surcharge of the claimed policy is never applied. -/
theorem c8_counterexample_weight_ignored :
    ((createOrder c8_st 7 "stripe" "MS3").1.toOption.map (fun o => o.shippingPrice)) = some 10 ∧
    calculateShipping c8_st.products c8_cart.items = 25 ∧
    ((10 : ℚ) ≠ 25) := by
  refine ⟨?_, ?_, by norm_num⟩
  · have hco := createOrder_ok_eq c8_st 7 "stripe" "MS3" c8_cart
      [OrderItem.mk 1 "Goat" 10 5 ((10 : ℚ) * ((5 : ℕ) : ℚ))] rfl (by decide) rfl
    rw [hco]
    show some (createOrderDoc 7 "stripe" "MS3" [OrderItem.mk 1 "Goat" 10 5 ((10 : ℚ) * ((5 : ℕ) : ℚ))]).shippingPrice = some 10
    rw [Option.some.injEq]
    show (if ((10 : ℚ) * ((5 : ℕ) : ℚ) + 0 > 100) then (0 : ℚ) else 10) = 10
    norm_num
  · show calculateShipping c8_products c8_cart.items = 25
    rw [calculateShipping]
    norm_num [findProduct, List.find?, c8_cart]

theorem c8_witness :
    (createOrderDoc 7 "stripe" "MS3"
        [OrderItem.mk 1 "Goat" 10 5 ((10 : ℚ) * ((5 : ℕ) : ℚ))]).shippingPrice =
      if (createOrderDoc 7 "stripe" "MS3"
          [OrderItem.mk 1 "Goat" 10 5 ((10 : ℚ) * ((5 : ℕ) : ℚ))]).itemsPrice > 100 then 0 else 10 :=
  c8_flat_shipping c8_st 7 "stripe" "MS3" _ _
    (createOrder_ok_eq c8_st 7 "stripe" "MS3" c8_cart
      [OrderItem.mk 1 "Goat" 10 5 ((10 : ℚ) * ((5 : ℕ) : ℚ))] rfl (by decide) rfl)

end MeatShop
